import Mathlib

/-!
Verification of the TypeQL literal visitor (`rust/parser/literal.rs`).

The source converts a CST node for a value literal into a typed `Literal`
AST record.  We embed the data model and every `visit_*` function of
`literal.rs` shallowly.  The CST node adaptor (`Node`, `into_child`,
`consume_any`, `consume_expected`, `try_consume_expected`,
`try_consume_any`) lives elsewhere in the repository and is modelled from
the spec where noted.  Rust's `debug_assert_eq!` is compiled out in
release builds, so every embedded function takes a `dbg : Bool` flag
telling whether debug assertions are enabled; `unreachable!` always
aborts, in every build.  Failure is modelled with `Except Fault`.
-/

namespace TypeQL

/-- The grammar rule kinds appearing in `literal.rs`.  The real `Rule`
enum (generated from the whole grammar) has many further variants; they
are represented by `other` with the variant's name. -/
inductive Rule where
  | value_literal
  | quoted_string_literal
  | boolean_literal
  | signed_integer
  | signed_decimal
  | datetime_tz_literal
  | datetime_literal
  | date_literal
  | sign
  | PLUS
  | MINUS
  | integer_literal
  | decimal_literal
  | date_fragment
  | time
  | iana_timezone
  | iso8601_timezone_offset
  | year
  | month
  | day
  | hour
  | minute
  | second
  | second_fraction
  | other (tag : String)
  deriving DecidableEq, Repr

/-- Source position range of a node (spec §3, §6). -/
structure Span where
  begin_offset : Nat
  end_offset : Nat
  deriving DecidableEq, Repr

/-- A CST node: rule-kind tag, exact matched text, span, ordered children
(spec §6: the external Grammar-Node Adaptor). -/
inductive Node where
  | mk (rule : Rule) (text : String) (span : Span) (children : List Node)

def Node.as_rule : Node → Rule
  | .mk r _ _ _ => r

def Node.as_str : Node → String
  | .mk _ t _ _ => t

def Node.span : Node → Span
  | .mk _ _ s _ => s

def Node.children : Node → List Node
  | .mk _ _ _ cs => cs

/-- Modelled from the spec (§6, §7): rendering a node for the
IllegalGrammar payload surfaces "the offending node's rendered text";
the renderer itself is outside `src/`, so we take the matched text. -/
def Node.to_string (n : Node) : String := n.as_str

/-- How the embedded code fails.  In `literal.rs` every IllegalGrammar
raise is the `unreachable!("{}", TypeQLError::IllegalGrammar { input })`
panic macro, and the structural checks are `debug_assert_eq!` panics
that exist only in debug builds.  The child-consumption adaptor is
outside `src/` and is modelled from the spec as raising a catchable
IllegalGrammar condition. -/
inductive Fault where
  | unreachableCrash (input : String)
  | debugAssertCrash
  | adaptorIllegalGrammar (input : String)
  deriving DecidableEq, Repr

/-- Faults raised through Rust panic macros (`unreachable!`,
`debug_assert_eq!`) crash the thread rather than being returned to the
caller as an error value; only the spec-modelled adaptor condition is an
ordinary catchable error. -/
def Fault.is_catchable_error : Fault → Bool
  | .unreachableCrash _ => false
  | .debugAssertCrash => false
  | .adaptorIllegalGrammar _ => true

/-- `debug_assert_eq!(node.as_rule(), r)`: fires only when debug
assertions are enabled. -/
def debug_assert_rule (dbg : Bool) (n : Node) (r : Rule) : Except Fault Unit :=
  if dbg ∧ n.as_rule ≠ r then .error .debugAssertCrash else .ok ()

/-- Modelled from the spec (§6): "take next child unconditionally".
The repo's `RuleMatcher::consume_any` is outside `src/`. -/
def consume_any : List Node → Except Fault (Node × List Node)
  | [] => .error (.adaptorIllegalGrammar "")
  | c :: rest => .ok (c, rest)

/-- Modelled from the spec (§6, §7): "take next child only if it has a
given rule-kind (fail otherwise)"; a missing or mismatched required
child raises IllegalGrammar with the offending text. -/
def consume_expected (r : Rule) : List Node → Except Fault (Node × List Node)
  | [] => .error (.adaptorIllegalGrammar "")
  | c :: rest =>
      if c.as_rule = r then .ok (c, rest)
      else .error (.adaptorIllegalGrammar c.to_string)

/-- Modelled from the spec (§4.4, §6): optionally take the next child
when it matches the given rule-kind, else leave it and yield `none`. -/
def try_consume_expected (r : Rule) (cs : List Node) : Option Node × List Node :=
  match cs with
  | [] => (none, [])
  | c :: rest => if c.as_rule = r then (some c, rest) else (none, cs)

/-- Modelled from the spec (§6): "take next child only if one exists
(else empty)". -/
def try_consume_any : List Node → Option Node × List Node
  | [] => (none, [])
  | c :: rest => (some c, rest)

/-- `debug_assert_eq!(children.try_consume_any(), None)`: the residual
check after a fixed-arity composition; in release builds the macro is
compiled out and residual children pass silently. -/
def debug_assert_residual_none (dbg : Bool) (cs : List Node) : Except Fault Unit :=
  match try_consume_any cs with
  | (none, _) => .ok ()
  | (some _, _) => if dbg then .error .debugAssertCrash else .ok ()

/-- Modelled from the spec (§4.1, §6): `Node::into_child` takes the
node's single child via the unconditional-take operation; it lives
outside `src/` and performs no residual-children inspection. -/
def Node.into_child (n : Node) : Except Fault Node := do
  let (c, _) ← consume_any n.children
  pure c

/-! ### The value data model (`value` module, modelled from spec §3) -/

structure StringLiteral where
  value : String
  deriving DecidableEq, Repr

structure BooleanLiteral where
  value : String
  deriving DecidableEq, Repr

structure IntegerLiteral where
  value : String
  deriving DecidableEq, Repr

inductive Sign where
  | Plus
  | Minus
  deriving DecidableEq, Repr

structure SignedIntegerLiteral where
  sign : Option Sign
  integral : String
  deriving DecidableEq, Repr

structure SignedDecimalLiteral where
  sign : Option Sign
  decimal : String
  deriving DecidableEq, Repr

structure DateFragment where
  year : String
  month : String
  day : String
  deriving DecidableEq, Repr

structure TimeFragment where
  hour : String
  minute : String
  second : Option String
  second_fraction : Option String
  deriving DecidableEq, Repr

structure DateLiteral where
  date : DateFragment
  deriving DecidableEq, Repr

structure DateTimeLiteral where
  date : DateFragment
  time : TimeFragment
  deriving DecidableEq, Repr

inductive TimeZone where
  | IANA (name : String)
  | ISO (offset : String)
  deriving DecidableEq, Repr

structure DateTimeTZLiteral where
  date : DateFragment
  time : TimeFragment
  timezone : TimeZone
  deriving DecidableEq, Repr

inductive ValueLiteral where
  | String (lit : StringLiteral)
  | Boolean (lit : BooleanLiteral)
  | Integer (lit : SignedIntegerLiteral)
  | Decimal (lit : SignedDecimalLiteral)
  | DateTimeTz (lit : DateTimeTZLiteral)
  | DateTime (lit : DateTimeLiteral)
  | Date (lit : DateLiteral)
  deriving DecidableEq, Repr

/-- Modelled from the spec (§3): a `Literal` pairs the full source span
with the tagged value; the constructor lives outside `src/`. -/
structure Literal where
  span : Span
  value : ValueLiteral
  deriving DecidableEq, Repr

def Literal.new (span : Span) (value : ValueLiteral) : Literal :=
  { span := span, value := value }

/-! ### The visitor functions of `literal.rs` -/

/-- `visit_sign` (literal.rs:35-43). -/
def visit_sign (dbg : Bool) (node : Node) : Except Fault Sign := do
  debug_assert_rule dbg node Rule.sign
  let child ← node.into_child
  match child.as_rule with
  | Rule.PLUS => pure Sign.Plus
  | Rule.MINUS => pure Sign.Minus
  | _ => Except.error (Fault.unreachableCrash child.to_string)

/-- `visit_integer_literal` (literal.rs:45-48). -/
def visit_integer_literal (dbg : Bool) (node : Node) : Except Fault IntegerLiteral := do
  debug_assert_rule dbg node Rule.integer_literal
  pure { value := node.as_str }

/-- `visit_quoted_string_literal` (literal.rs:50-53). -/
def visit_quoted_string_literal (dbg : Bool) (node : Node) : Except Fault StringLiteral := do
  debug_assert_rule dbg node Rule.quoted_string_literal
  pure { value := node.as_str }

/-- `visit_signed_integer` (literal.rs:55-69). -/
def visit_signed_integer (dbg : Bool) (node : Node) : Except Fault SignedIntegerLiteral := do
  debug_assert_rule dbg node Rule.signed_integer
  let children := node.children
  let (first_node, children) ← consume_any children
  let (sign, integral, children) ←
    match first_node.as_rule with
    | Rule.sign => do
        let s ← visit_sign dbg first_node
        let (i, children) ← consume_expected Rule.integer_literal children
        let il ← visit_integer_literal dbg i
        pure (some s, il.value, children)
    | Rule.integer_literal => do
        let il ← visit_integer_literal dbg first_node
        pure ((none : Option Sign), il.value, children)
    | _ => Except.error (Fault.unreachableCrash first_node.to_string)
  debug_assert_residual_none dbg children
  pure { sign := sign, integral := integral }

/-- `visit_signed_decimal` (literal.rs:71-84). -/
def visit_signed_decimal (dbg : Bool) (node : Node) : Except Fault SignedDecimalLiteral := do
  debug_assert_rule dbg node Rule.signed_decimal
  let children := node.children
  let (first_node, children) ← consume_any children
  let (sign, decimal, children) ←
    match first_node.as_rule with
    | Rule.sign => do
        let s ← visit_sign dbg first_node
        let (d, children) ← consume_expected Rule.decimal_literal children
        pure (some s, d.as_str, children)
    | Rule.decimal_literal =>
        pure ((none : Option Sign), first_node.as_str, children)
    | _ => Except.error (Fault.unreachableCrash first_node.to_string)
  debug_assert_residual_none dbg children
  pure { sign := sign, decimal := decimal }

/-- `visit_date_fragment` (literal.rs:116-124). -/
def visit_date_fragment (dbg : Bool) (node : Node) : Except Fault DateFragment := do
  debug_assert_rule dbg node Rule.date_fragment
  let children := node.children
  let (y, children) ← consume_expected Rule.year children
  let (m, children) ← consume_expected Rule.month children
  let (d, children) ← consume_expected Rule.day children
  debug_assert_residual_none dbg children
  pure { year := y.as_str, month := m.as_str, day := d.as_str }

/-- `visit_time` (literal.rs:126-135). -/
def visit_time (dbg : Bool) (node : Node) : Except Fault TimeFragment := do
  debug_assert_rule dbg node Rule.time
  let children := node.children
  let (h, children) ← consume_expected Rule.hour children
  let (m, children) ← consume_expected Rule.minute children
  let (s, children) := try_consume_expected Rule.second children
  let (f, children) := try_consume_expected Rule.second_fraction children
  debug_assert_residual_none dbg children
  pure { hour := h.as_str, minute := m.as_str,
         second := s.map Node.as_str, second_fraction := f.map Node.as_str }

/-- `visit_datetime_tz_literal` (literal.rs:86-99). -/
def visit_datetime_tz_literal (dbg : Bool) (node : Node) : Except Fault DateTimeTZLiteral := do
  debug_assert_rule dbg node Rule.datetime_tz_literal
  let children := node.children
  let (dnode, children) ← consume_expected Rule.date_fragment children
  let date ← visit_date_fragment dbg dnode
  let (tnode, children) ← consume_expected Rule.time children
  let time ← visit_time dbg tnode
  let (tz_node, children) ← consume_any children
  let timezone ←
    match tz_node.as_rule with
    | Rule.iana_timezone => pure (TimeZone.IANA tz_node.as_str)
    | Rule.iso8601_timezone_offset => pure (TimeZone.ISO tz_node.as_str)
    | _ => Except.error (Fault.unreachableCrash tz_node.to_string)
  debug_assert_residual_none dbg children
  pure { date := date, time := time, timezone := timezone }

/-- `visit_datetime_literal` (literal.rs:101-108). -/
def visit_datetime_literal (dbg : Bool) (node : Node) : Except Fault DateTimeLiteral := do
  debug_assert_rule dbg node Rule.datetime_literal
  let children := node.children
  let (dnode, children) ← consume_expected Rule.date_fragment children
  let date ← visit_date_fragment dbg dnode
  let (tnode, children) ← consume_expected Rule.time children
  let time ← visit_time dbg tnode
  debug_assert_residual_none dbg children
  pure { date := date, time := time }

/-- `visit_date_literal` (literal.rs:110-114): takes the single child as
the date fragment; no residual-children check is performed. -/
def visit_date_literal (dbg : Bool) (node : Node) : Except Fault DateLiteral := do
  debug_assert_rule dbg node Rule.date_literal
  let child ← node.into_child
  let date ← visit_date_fragment dbg child
  pure { date := date }

/-- `visit_value_literal` (literal.rs:16-33): the Literal Dispatcher. -/
def visit_value_literal (dbg : Bool) (node : Node) : Except Fault Literal := do
  debug_assert_rule dbg node Rule.value_literal
  let span := node.span
  let child ← node.into_child
  let value_literal ←
    match child.as_rule with
    | Rule.quoted_string_literal => do
        pure (ValueLiteral.String (← visit_quoted_string_literal dbg child))
    | Rule.boolean_literal =>
        pure (ValueLiteral.Boolean { value := child.as_str })
    | Rule.signed_integer => do
        pure (ValueLiteral.Integer (← visit_signed_integer dbg child))
    | Rule.signed_decimal => do
        pure (ValueLiteral.Decimal (← visit_signed_decimal dbg child))
    | Rule.datetime_tz_literal => do
        pure (ValueLiteral.DateTimeTz (← visit_datetime_tz_literal dbg child))
    | Rule.datetime_literal => do
        pure (ValueLiteral.DateTime (← visit_datetime_literal dbg child))
    | Rule.date_literal => do
        pure (ValueLiteral.Date (← visit_date_literal dbg child))
    | _ => Except.error (Fault.unreachableCrash child.to_string)
  pure (Literal.new span value_literal)

/-! ### Claim-support definitions -/

/-- The tag of the active `ValueLiteral` variant. -/
inductive VariantTag where
  | StringT
  | BooleanT
  | IntegerT
  | DecimalT
  | DateTimeTzT
  | DateTimeT
  | DateT
  deriving DecidableEq, Repr

def ValueLiteral.tag : ValueLiteral → VariantTag
  | .String _ => .StringT
  | .Boolean _ => .BooleanT
  | .Integer _ => .IntegerT
  | .Decimal _ => .DecimalT
  | .DateTimeTz _ => .DateTimeTzT
  | .DateTime _ => .DateTimeT
  | .Date _ => .DateT

/-- The spec's dispatch table (§4.1): child rule kind → variant tag;
`none` for every kind outside the seven recognized ones. -/
def dispatchTable : Rule → Option VariantTag
  | .quoted_string_literal => some .StringT
  | .boolean_literal => some .BooleanT
  | .signed_integer => some .IntegerT
  | .signed_decimal => some .DecimalT
  | .datetime_tz_literal => some .DateTimeTzT
  | .datetime_literal => some .DateTimeT
  | .date_literal => some .DateT
  | _ => none

@[simp] lemma ok_bind {α β : Type} (a : α) (f : α → Except Fault β) :
    (Except.ok a : Except Fault α) >>= f = f a := rfl

@[simp] lemma error_bind {α β : Type} (e : Fault) (f : α → Except Fault β) :
    (Except.error e : Except Fault α) >>= f = Except.error e := rfl

lemma debug_assert_rule_ok {dbg : Bool} {n : Node} {r : Rule} (h : n.as_rule = r) :
    debug_assert_rule dbg n r = .ok () := by
  simp [debug_assert_rule, h]

lemma into_child_cons {n : Node} {c : Node} {cs : List Node}
    (h : n.children = c :: cs) :
    n.into_child = .ok c := by
  simp [Node.into_child, consume_any, h]

/-! ### Concrete nodes used by witnesses and counterexamples -/

def plusTok : Node := .mk .PLUS "+" ⟨0, 1⟩ []
def minusTok : Node := .mk .MINUS "-" ⟨0, 1⟩ []
def signPlusNode : Node := .mk .sign "+" ⟨0, 1⟩ [plusTok]
def signMinusNode : Node := .mk .sign "-" ⟨0, 1⟩ [minusTok]
def int7Node : Node := .mk .integer_literal "7" ⟨1, 2⟩ []
def signedIntPlus7 : Node := .mk .signed_integer "+7" ⟨0, 2⟩ [signPlusNode, int7Node]
def valLitPlus7 : Node := .mk .value_literal "+7" ⟨0, 2⟩ [signedIntPlus7]

example : visit_signed_integer true signedIntPlus7 =
    .ok { sign := some .Plus, integral := "7" } := rfl
example : visit_value_literal true valLitPlus7 =
    .ok { span := ⟨0, 2⟩, value := .Integer { sign := some .Plus, integral := "7" } } := rfl

@[simp] lemma pure_eq_ok {α : Type} (a : α) : (pure a : Except Fault α) = .ok a := rfl

/-- Inverting the dispatcher's final `Literal::new` wrapping: a successful
result of a recognized branch determines the span and the wrapped variant. -/
lemma newLiteral_of_ok {α : Type} {sp : Span} {g : α → ValueLiteral}
    {m : Except Fault α} {lit : Literal}
    (h : (m >>= fun x => (Except.ok (Literal.new sp (g x)) : Except Fault Literal))
          = Except.ok lit) :
    ∃ x, m = .ok x ∧ lit = Literal.new sp (g x) := by
  cases m with
  | error e => simp at h
  | ok x =>
      simp only [ok_bind, Except.ok.injEq] at h
      exact ⟨x, rfl, h.symm⟩

/-- A successful dispatch always produces a `Literal` carrying the
dispatched node's own span. -/
lemma visit_value_literal_span {dbg : Bool} {node : Node} {lit : Literal}
    (hlit : visit_value_literal dbg node = .ok lit) :
    lit.span = node.span := by
  unfold visit_value_literal at hlit
  cases hda : debug_assert_rule dbg node Rule.value_literal <;> rw [hda] at hlit <;>
    simp only [ok_bind, error_bind] at hlit
  case error => simp at hlit
  cases hic : node.into_child <;> rw [hic] at hlit <;>
    simp only [ok_bind, error_bind] at hlit
  case error => simp at hlit
  case ok child =>
    cases hr : child.as_rule <;> rw [hr] at hlit
    case boolean_literal =>
      simp only [pure_eq_ok, ok_bind, Except.ok.injEq] at hlit
      simp [← hlit, Literal.new]
    case quoted_string_literal =>
      simp only [pure_eq_ok, ok_bind] at hlit
      obtain ⟨x, _, hl⟩ := newLiteral_of_ok hlit
      simp [hl, Literal.new]
    case signed_integer =>
      simp only [pure_eq_ok, ok_bind] at hlit
      obtain ⟨x, _, hl⟩ := newLiteral_of_ok hlit
      simp [hl, Literal.new]
    case signed_decimal =>
      simp only [pure_eq_ok, ok_bind] at hlit
      obtain ⟨x, _, hl⟩ := newLiteral_of_ok hlit
      simp [hl, Literal.new]
    case datetime_tz_literal =>
      simp only [pure_eq_ok, ok_bind] at hlit
      obtain ⟨x, _, hl⟩ := newLiteral_of_ok hlit
      simp [hl, Literal.new]
    case datetime_literal =>
      simp only [pure_eq_ok, ok_bind] at hlit
      obtain ⟨x, _, hl⟩ := newLiteral_of_ok hlit
      simp [hl, Literal.new]
    case date_literal =>
      simp only [pure_eq_ok, ok_bind] at hlit
      obtain ⟨x, _, hl⟩ := newLiteral_of_ok hlit
      simp [hl, Literal.new]
    all_goals simp at hlit

/-- C1: for a value-literal node with a single child of one of the seven
recognized kinds, the dispatcher returns exactly the variant the dispatch
table maps that kind to; any other child kind raises IllegalGrammar. -/
theorem C1_dispatch_totality (dbg : Bool) (node child : Node)
    (h1 : node.as_rule = Rule.value_literal)
    (h2 : node.children = [child]) :
    (∀ lit : Literal, visit_value_literal dbg node = .ok lit →
        dispatchTable child.as_rule = some lit.value.tag)
    ∧ (dispatchTable child.as_rule = none →
        visit_value_literal dbg node = .error (.unreachableCrash child.to_string)) := by
  have hd := @debug_assert_rule_ok dbg node Rule.value_literal h1
  have hc := @into_child_cons node child [] h2
  constructor
  · intro lit hlit
    rw [visit_value_literal, hd] at hlit
    simp only [ok_bind] at hlit
    rw [hc] at hlit
    simp only [ok_bind] at hlit
    cases hr : child.as_rule <;> rw [hr] at hlit
    case boolean_literal =>
      simp only [pure_eq_ok, ok_bind, Except.ok.injEq] at hlit
      simp [← hlit, Literal.new, dispatchTable, ValueLiteral.tag]
    case quoted_string_literal =>
      simp only [pure_eq_ok, ok_bind] at hlit
      obtain ⟨x, _, hl⟩ := newLiteral_of_ok hlit
      simp [hl, Literal.new, dispatchTable, ValueLiteral.tag]
    case signed_integer =>
      simp only [pure_eq_ok, ok_bind] at hlit
      obtain ⟨x, _, hl⟩ := newLiteral_of_ok hlit
      simp [hl, Literal.new, dispatchTable, ValueLiteral.tag]
    case signed_decimal =>
      simp only [pure_eq_ok, ok_bind] at hlit
      obtain ⟨x, _, hl⟩ := newLiteral_of_ok hlit
      simp [hl, Literal.new, dispatchTable, ValueLiteral.tag]
    case datetime_tz_literal =>
      simp only [pure_eq_ok, ok_bind] at hlit
      obtain ⟨x, _, hl⟩ := newLiteral_of_ok hlit
      simp [hl, Literal.new, dispatchTable, ValueLiteral.tag]
    case datetime_literal =>
      simp only [pure_eq_ok, ok_bind] at hlit
      obtain ⟨x, _, hl⟩ := newLiteral_of_ok hlit
      simp [hl, Literal.new, dispatchTable, ValueLiteral.tag]
    case date_literal =>
      simp only [pure_eq_ok, ok_bind] at hlit
      obtain ⟨x, _, hl⟩ := newLiteral_of_ok hlit
      simp [hl, Literal.new, dispatchTable, ValueLiteral.tag]
    all_goals simp at hlit
  · intro hnone
    rw [visit_value_literal, hd]
    simp only [ok_bind]
    rw [hc]
    simp only [ok_bind]
    cases hr : child.as_rule <;> rw [hr] at hnone <;>
      simp [dispatchTable] at hnone ⊢

/-- C4: the Literal returned for a value-literal node carries the node's
full span, start and end, so the span covers the entire literal text
including any leading sign or trailing timezone suffix. -/
theorem C4_full_span (dbg : Bool) (node : Node) (lit : Literal)
    (h1 : node.as_rule = Rule.value_literal)
    (hok : visit_value_literal dbg node = .ok lit) :
    lit.span = node.span :=
  visit_value_literal_span hok

def plus7Literal : Literal :=
  { span := ⟨0, 2⟩, value := .Integer { sign := some .Plus, integral := "7" } }

/-- C4 witness: the dispatcher applied to the concrete `+7` literal node
yields a Literal with the node's span. -/
theorem C4_full_span_witness :
    visit_value_literal true valLitPlus7 = .ok plus7Literal
    ∧ plus7Literal.span = valLitPlus7.span :=
  ⟨rfl, C4_full_span true valLitPlus7 plus7Literal rfl rfl⟩

/-- A value-literal node whose single child has a kind outside the
dispatch table makes the dispatcher hit the `unreachable!` branch. -/
lemma visit_value_literal_mismatch {dbg : Bool} {node child : Node}
    (h1 : node.as_rule = Rule.value_literal)
    (h2 : node.children = [child])
    (h3 : dispatchTable child.as_rule = none) :
    visit_value_literal dbg node = .error (.unreachableCrash child.to_string) := by
  rw [visit_value_literal, debug_assert_rule_ok h1]
  simp only [ok_bind]
  rw [into_child_cons h2]
  simp only [ok_bind]
  cases hr : child.as_rule <;> rw [hr] at h3 <;>
    simp [dispatchTable] at h3 ⊢

def badKindChild : Node := .mk (.other "telemetry") "xyz" ⟨0, 3⟩ []
def valLitBadKind : Node := .mk .value_literal "xyz" ⟨0, 3⟩ [badKindChild]

/-- C1 witness: `+7` dispatches to the Integer variant; a child of an
unrecognized kind raises IllegalGrammar with its text. -/
theorem C1_dispatch_totality_witness :
    dispatchTable signedIntPlus7.as_rule = some plus7Literal.value.tag
    ∧ visit_value_literal true valLitBadKind =
        .error (.unreachableCrash badKindChild.to_string) :=
  ⟨(C1_dispatch_totality true valLitPlus7 signedIntPlus7 rfl rfl).1 plus7Literal rfl,
   (C1_dispatch_totality true valLitBadKind badKindChild rfl rfl).2 rfl⟩

/-- A sign node whose single child is neither a PLUS nor a MINUS token
hits the `unreachable!` branch of `visit_sign`. -/
lemma visit_sign_mismatch {dbg : Bool} {node tok : Node}
    (hs : node.as_rule = Rule.sign)
    (h1 : node.children = [tok])
    (hp : tok.as_rule ≠ Rule.PLUS)
    (hm : tok.as_rule ≠ Rule.MINUS) :
    visit_sign dbg node = .error (.unreachableCrash tok.to_string) := by
  rw [visit_sign, debug_assert_rule_ok hs]
  simp only [ok_bind]
  rw [into_child_cons h1]
  simp only [ok_bind]

/-- A bad sign token deep inside a signed integer propagates out of
`visit_signed_integer` unchanged: the fault is not swallowed. -/
lemma visit_signed_integer_bad_sign {dbg : Bool} {node snode tok : Node}
    {rest : List Node}
    (h1 : node.as_rule = Rule.signed_integer)
    (h2 : node.children = snode :: rest)
    (hs : snode.as_rule = Rule.sign)
    (h3 : snode.children = [tok])
    (hp : tok.as_rule ≠ Rule.PLUS)
    (hm : tok.as_rule ≠ Rule.MINUS) :
    visit_signed_integer dbg node = .error (.unreachableCrash tok.to_string) := by
  rw [visit_signed_integer, debug_assert_rule_ok h1]
  simp only [ok_bind]
  simp only [h2, consume_any, ok_bind]
  rw [hs]
  rw [visit_sign_mismatch hs h3 hp hm]
  simp only [error_bind]

def c2tok : Node := .mk (.other "STAR") "*" ⟨3, 4⟩ []
def c2sign : Node := .mk .sign "*" ⟨3, 4⟩ [c2tok]
def c2int : Node := .mk .integer_literal "9" ⟨4, 5⟩ []
def c2sint : Node := .mk .signed_integer "*9" ⟨3, 5⟩ [c2sign, c2int]
def c2val : Node := .mk .value_literal "*9" ⟨3, 5⟩ [c2sint]
def c2badChild : Node := .mk (.other "COMMA") "," ⟨7, 8⟩ []
def c2badVal : Node := .mk .value_literal "," ⟨7, 8⟩ [c2badChild]

/-- C2 counterexample: on a value-literal node whose child kind matches
no branch, the condition is raised through the `unreachable!` panic
macro — an assertion-style crash, not a catchable error value — so the
claim that it is raised "as an explicit, catchable error ... never as an
unchecked/unreachable crash" fails at this input. -/
theorem C2_counterexample :
    visit_value_literal true c2badVal = .error (.unreachableCrash ",")
    ∧ (Fault.unreachableCrash ",").is_catchable_error = false := ⟨rfl, rfl⟩

/-- C2 amended: whenever the dispatcher (or, through it, a composer)
meets a node whose rule kind matches no expected branch, the resulting
IllegalGrammar condition carries the offending node's text and is
propagated to the caller without being swallowed or locally recovered,
but it is raised through the `unreachable!` panic macro — an
assertion-style crash — rather than as a catchable error value. -/
theorem C2_fault_surfaced (dbg : Bool) :
    (∀ node child : Node, node.as_rule = Rule.value_literal →
        node.children = [child] → dispatchTable child.as_rule = none →
        visit_value_literal dbg node = .error (.unreachableCrash child.to_string)
        ∧ (Fault.unreachableCrash child.to_string).is_catchable_error = false)
    ∧ (∀ vnode inode snode tok : Node, ∀ irest : List Node,
        vnode.as_rule = Rule.value_literal → vnode.children = [inode] →
        inode.as_rule = Rule.signed_integer → inode.children = snode :: irest →
        snode.as_rule = Rule.sign → snode.children = [tok] →
        tok.as_rule ≠ Rule.PLUS → tok.as_rule ≠ Rule.MINUS →
        visit_value_literal dbg vnode = .error (.unreachableCrash tok.to_string)) := by
  constructor
  · intro node child h1 h2 h3
    exact ⟨visit_value_literal_mismatch h1 h2 h3, rfl⟩
  · intro vnode inode snode tok irest hv1 hv2 hi1 hi2 hs1 hs2 hp hm
    rw [visit_value_literal, debug_assert_rule_ok hv1]
    simp only [ok_bind]
    rw [into_child_cons hv2]
    simp only [ok_bind]
    rw [hi1]
    rw [visit_signed_integer_bad_sign hi1 hi2 hs1 hs2 hp hm]
    simp only [error_bind]

/-- C2 witness for the amended theorem: a `*` token inside the sign of a
signed integer surfaces at the top of the dispatcher with its text. -/
theorem C2_fault_surfaced_witness :
    visit_value_literal true c2val = .error (.unreachableCrash "*") :=
  (C2_fault_surfaced true).2 c2val c2sint c2sign c2tok [c2int]
    rfl rfl rfl rfl rfl rfl (by decide) (by decide)

def c3int : Node := .mk .integer_literal "7" ⟨0, 1⟩ []
def c3extra : Node := .mk (.other "WS") " " ⟨1, 2⟩ []
def c3sint : Node := .mk .signed_integer "7 " ⟨0, 2⟩ [c3int, c3extra]
def c3dec : Node := .mk .decimal_literal "2.5" ⟨0, 3⟩ []
def c3extra2 : Node := .mk (.other "WS") " " ⟨3, 4⟩ []
def c3sdec : Node := .mk .signed_decimal "2.5 " ⟨0, 4⟩ [c3dec, c3extra2]

/-- C3 counterexample: with debug assertions disabled (a release build)
a signed-integer node carrying a residual child past the magnitude is
accepted without any fault, so the residual child does not trigger
IllegalGrammar "in every build"; even with debug assertions enabled the
fault is an assertion crash carrying no IllegalGrammar payload. -/
theorem C3_counterexample :
    visit_signed_integer false c3sint = .ok { sign := none, integral := "7" }
    ∧ visit_signed_integer true c3sint = .error .debugAssertCrash := ⟨rfl, rfl⟩

/-- C3 amended: after the one or two expected children of a
signed-integer or signed-decimal node, residual children are checked
only by `debug_assert_eq!`: with debug assertions enabled a residual
child triggers an assertion crash (not the IllegalGrammar condition),
while release builds silently accept residual children. -/
theorem C3_residual_check_debug_only :
    (∀ node c extra : Node, ∀ rest : List Node,
        node.as_rule = Rule.signed_integer →
        node.children = c :: extra :: rest →
        c.as_rule = Rule.integer_literal →
        visit_signed_integer true node = .error .debugAssertCrash
        ∧ visit_signed_integer false node = .ok { sign := none, integral := c.as_str })
    ∧ (∀ node c extra : Node, ∀ rest : List Node,
        node.as_rule = Rule.signed_decimal →
        node.children = c :: extra :: rest →
        c.as_rule = Rule.decimal_literal →
        visit_signed_decimal true node = .error .debugAssertCrash
        ∧ visit_signed_decimal false node = .ok { sign := none, decimal := c.as_str }) := by
  constructor <;>
  · intro node c extra rest h1 h2 hc
    constructor <;>
      simp [visit_signed_integer, visit_signed_decimal, visit_integer_literal,
        debug_assert_rule, h1, h2, hc, consume_any,
        debug_assert_residual_none, try_consume_any]

/-- C3 witness for the amended theorem, on a concrete signed-decimal
node with one residual child. -/
theorem C3_residual_check_debug_only_witness :
    visit_signed_decimal true c3sdec = .error .debugAssertCrash
    ∧ visit_signed_decimal false c3sdec = .ok { sign := none, decimal := "2.5" } :=
  C3_residual_check_debug_only.2 c3sdec c3dec c3extra2 [] rfl rfl rfl

/-- C5: an optional leading sign child yields `some Plus` for a PLUS
token and `some Minus` for a MINUS token, a missing sign yields `none`,
and the integral digits are always the integer-literal child's matched
text copied verbatim, whatever the digit sequence. -/
theorem C5_sign_composition (dbg : Bool) :
    (∀ node s tok i : Node,
        node.as_rule = Rule.signed_integer → node.children = [s, i] →
        s.as_rule = Rule.sign → s.children = [tok] →
        i.as_rule = Rule.integer_literal →
        (tok.as_rule = Rule.PLUS →
          visit_signed_integer dbg node = .ok { sign := some .Plus, integral := i.as_str })
        ∧ (tok.as_rule = Rule.MINUS →
          visit_signed_integer dbg node = .ok { sign := some .Minus, integral := i.as_str }))
    ∧ (∀ node i : Node,
        node.as_rule = Rule.signed_integer → node.children = [i] →
        i.as_rule = Rule.integer_literal →
        visit_signed_integer dbg node = .ok { sign := none, integral := i.as_str })
    ∧ (∀ n : Node, n.as_rule = Rule.integer_literal →
        visit_integer_literal dbg n = .ok { value := n.as_str }) := by
  refine ⟨?_, ?_, ?_⟩
  · intro node s tok i h1 h2 hs hst hi
    constructor <;> intro ht <;>
      simp [visit_signed_integer, visit_sign, visit_integer_literal, debug_assert_rule,
        h1, h2, hs, hst, hi, ht, Node.into_child, consume_any, consume_expected,
        debug_assert_residual_none, try_consume_any]
  · intro node i h1 h2 hi
    simp [visit_signed_integer, visit_integer_literal, debug_assert_rule,
      h1, h2, hi, consume_any, debug_assert_residual_none, try_consume_any]
  · intro n hn
    simp [visit_integer_literal, debug_assert_rule, hn]

def c5minusTok : Node := .mk .MINUS "-" ⟨0, 1⟩ []
def c5sign : Node := .mk .sign "-" ⟨0, 1⟩ [c5minusTok]
def c5int : Node := .mk .integer_literal "7" ⟨1, 2⟩ []
def c5sint : Node := .mk .signed_integer "-7" ⟨0, 2⟩ [c5sign, c5int]

/-- C5 witness: parsing the CST of `-7` yields sign `Minus` and
integral `"7"`. -/
theorem C5_sign_composition_witness :
    visit_signed_integer true c5sint = .ok { sign := some .Minus, integral := "7" } :=
  ((C5_sign_composition true).1 c5sint c5sign c5minusTok c5int rfl rfl rfl rfl rfl).2 rfl

/-- C6: the decimal field of a signed-decimal node is the
decimal-literal child's matched text copied verbatim, decimal point and
trailing zeros included, with or without a sign child. -/
theorem C6_decimal_verbatim (dbg : Bool) :
    (∀ node s tok d : Node,
        node.as_rule = Rule.signed_decimal → node.children = [s, d] →
        s.as_rule = Rule.sign → s.children = [tok] →
        d.as_rule = Rule.decimal_literal →
        (tok.as_rule = Rule.PLUS →
          visit_signed_decimal dbg node = .ok { sign := some .Plus, decimal := d.as_str })
        ∧ (tok.as_rule = Rule.MINUS →
          visit_signed_decimal dbg node = .ok { sign := some .Minus, decimal := d.as_str }))
    ∧ (∀ node d : Node,
        node.as_rule = Rule.signed_decimal → node.children = [d] →
        d.as_rule = Rule.decimal_literal →
        visit_signed_decimal dbg node = .ok { sign := none, decimal := d.as_str }) := by
  constructor
  · intro node s tok d h1 h2 hs hst hd
    constructor <;> intro ht <;>
      simp [visit_signed_decimal, visit_sign, debug_assert_rule,
        h1, h2, hs, hst, hd, ht, Node.into_child, consume_any, consume_expected,
        debug_assert_residual_none, try_consume_any]
  · intro node d h1 h2 hd
    simp [visit_signed_decimal, debug_assert_rule,
      h1, h2, hd, consume_any, debug_assert_residual_none, try_consume_any]

def c6tok : Node := .mk .MINUS "-" ⟨0, 1⟩ []
def c6sign : Node := .mk .sign "-" ⟨0, 1⟩ [c6tok]
def c6dec : Node := .mk .decimal_literal "3.1400" ⟨1, 7⟩ []
def c6sdec : Node := .mk .signed_decimal "-3.1400" ⟨0, 7⟩ [c6sign, c6dec]

/-- C6 witness: parsing the CST of `-3.1400` yields sign `Minus` and
decimal `"3.1400"`, trailing zeros preserved. -/
theorem C6_decimal_verbatim_witness :
    visit_signed_decimal true c6sdec = .ok { sign := some .Minus, decimal := "3.1400" } :=
  ((C6_decimal_verbatim true).1 c6sdec c6sign c6tok c6dec rfl rfl rfl rfl rfl).2 rfl

/-- C7: the time composer requires hour and minute in order, then
optionally consumes a second child and, independently, a
second-fraction child, each yielding `none` when absent without
failing; in particular a fraction child without a second child yields
`second = none` with the fraction populated. -/
theorem C7_time_optionals (dbg : Bool) :
    (∀ node hh mm : Node,
        node.as_rule = Rule.time → node.children = [hh, mm] →
        hh.as_rule = Rule.hour → mm.as_rule = Rule.minute →
        visit_time dbg node =
          .ok { hour := hh.as_str, minute := mm.as_str, second := none, second_fraction := none })
    ∧ (∀ node hh mm ss : Node,
        node.as_rule = Rule.time → node.children = [hh, mm, ss] →
        hh.as_rule = Rule.hour → mm.as_rule = Rule.minute →
        ss.as_rule = Rule.second →
        visit_time dbg node =
          .ok { hour := hh.as_str, minute := mm.as_str, second := some ss.as_str, second_fraction := none })
    ∧ (∀ node hh mm ss ff : Node,
        node.as_rule = Rule.time → node.children = [hh, mm, ss, ff] →
        hh.as_rule = Rule.hour → mm.as_rule = Rule.minute →
        ss.as_rule = Rule.second → ff.as_rule = Rule.second_fraction →
        visit_time dbg node =
          .ok { hour := hh.as_str, minute := mm.as_str, second := some ss.as_str, second_fraction := some ff.as_str })
    ∧ (∀ node hh mm ff : Node,
        node.as_rule = Rule.time → node.children = [hh, mm, ff] →
        hh.as_rule = Rule.hour → mm.as_rule = Rule.minute →
        ff.as_rule = Rule.second_fraction →
        visit_time dbg node =
          .ok { hour := hh.as_str, minute := mm.as_str, second := none, second_fraction := some ff.as_str }) := by
  refine ⟨?_, ?_, ?_, ?_⟩
  · intro node hh mm h1 h2 hhr hmr
    simp [visit_time, debug_assert_rule, h1, h2, hhr, hmr,
      consume_expected, try_consume_expected, debug_assert_residual_none, try_consume_any]
  · intro node hh mm ss h1 h2 hhr hmr hsr
    simp [visit_time, debug_assert_rule, h1, h2, hhr, hmr, hsr,
      consume_expected, try_consume_expected, debug_assert_residual_none, try_consume_any]
  · intro node hh mm ss ff h1 h2 hhr hmr hsr hfr
    simp [visit_time, debug_assert_rule, h1, h2, hhr, hmr, hsr, hfr,
      consume_expected, try_consume_expected, debug_assert_residual_none, try_consume_any]
  · intro node hh mm ff h1 h2 hhr hmr hfr
    simp [visit_time, debug_assert_rule, h1, h2, hhr, hmr, hfr,
      consume_expected, try_consume_expected, debug_assert_residual_none, try_consume_any]

def c7h : Node := .mk .hour "10" ⟨0, 2⟩ []
def c7m : Node := .mk .minute "30" ⟨3, 5⟩ []
def c7s : Node := .mk .second "15" ⟨6, 8⟩ []
def c7f : Node := .mk .second_fraction "500" ⟨9, 12⟩ []
def c7time : Node := .mk .time "10:30:15.500" ⟨0, 12⟩ [c7h, c7m, c7s, c7f]
def c7timeNoSec : Node := .mk .time "10:30.500" ⟨0, 9⟩ [c7h, c7m, c7f]

/-- C7 witness: `10:30:15.500` fills all four fields; a fraction child
without a second child yields `second = none` with the fraction kept. -/
theorem C7_time_optionals_witness :
    visit_time true c7time =
      .ok { hour := "10", minute := "30", second := some "15", second_fraction := some "500" }
    ∧ visit_time true c7timeNoSec =
      .ok { hour := "10", minute := "30", second := none, second_fraction := some "500" } :=
  ⟨(C7_time_optionals true).2.2.1 c7time c7h c7m c7s c7f rfl rfl rfl rfl rfl rfl,
   (C7_time_optionals true).2.2.2 c7timeNoSec c7h c7m c7f rfl rfl rfl rfl rfl⟩

/-- C8: after the date and time fragments of a datetime-with-timezone
node, an IANA zone-name child yields `TimeZone.IANA` with its verbatim
text, an ISO offset child yields `TimeZone.ISO` with its verbatim text,
and any other child kind raises IllegalGrammar — exactly one variant per
input. -/
theorem C8_timezone_variants (dbg : Bool) (node dnode tnode tz : Node)
    (df : DateFragment) (tf : TimeFragment)
    (h1 : node.as_rule = Rule.datetime_tz_literal)
    (h2 : node.children = [dnode, tnode, tz])
    (hdr : dnode.as_rule = Rule.date_fragment)
    (htr : tnode.as_rule = Rule.time)
    (hdf : visit_date_fragment dbg dnode = .ok df)
    (htf : visit_time dbg tnode = .ok tf) :
    (tz.as_rule = Rule.iana_timezone →
      visit_datetime_tz_literal dbg node =
        .ok { date := df, time := tf, timezone := .IANA tz.as_str })
    ∧ (tz.as_rule = Rule.iso8601_timezone_offset →
      visit_datetime_tz_literal dbg node =
        .ok { date := df, time := tf, timezone := .ISO tz.as_str })
    ∧ (tz.as_rule ≠ Rule.iana_timezone → tz.as_rule ≠ Rule.iso8601_timezone_offset →
      visit_datetime_tz_literal dbg node = .error (.unreachableCrash tz.to_string)) := by
  refine ⟨?_, ?_, ?_⟩
  · intro htz
    simp [visit_datetime_tz_literal, debug_assert_rule, h1, h2, hdr, htr, htz,
      consume_expected, consume_any, hdf, htf, debug_assert_residual_none, try_consume_any]
  · intro htz
    simp [visit_datetime_tz_literal, debug_assert_rule, h1, h2, hdr, htr, htz,
      consume_expected, consume_any, hdf, htf, debug_assert_residual_none, try_consume_any]
  · intro hne1 hne2
    simp [visit_datetime_tz_literal, debug_assert_rule, h1, h2, hdr, htr,
      consume_expected, consume_any, hdf, htf, debug_assert_residual_none, try_consume_any]

def c8y : Node := .mk .year "2024" ⟨0, 4⟩ []
def c8mo : Node := .mk .month "01" ⟨5, 7⟩ []
def c8d : Node := .mk .day "15" ⟨8, 10⟩ []
def c8date : Node := .mk .date_fragment "2024-01-15" ⟨0, 10⟩ [c8y, c8mo, c8d]
def c8h : Node := .mk .hour "10" ⟨11, 13⟩ []
def c8min : Node := .mk .minute "30" ⟨14, 16⟩ []
def c8time : Node := .mk .time "10:30" ⟨11, 16⟩ [c8h, c8min]
def c8iana : Node := .mk .iana_timezone "Europe/London" ⟨17, 30⟩ []
def c8dtz : Node :=
  .mk .datetime_tz_literal "2024-01-15T10:30 Europe/London" ⟨0, 30⟩ [c8date, c8time, c8iana]

/-- C8 witness: a concrete datetime with an IANA zone name produces the
IANA variant with the verbatim name. -/
theorem C8_timezone_variants_witness :
    visit_datetime_tz_literal true c8dtz = .ok
      { date := { year := "2024", month := "01", day := "15" },
        time := { hour := "10", minute := "30", second := none, second_fraction := none },
        timezone := .IANA "Europe/London" } :=
  (C8_timezone_variants true c8dtz c8date c8time c8iana
      { year := "2024", month := "01", day := "15" }
      { hour := "10", minute := "30", second := none, second_fraction := none }
      rfl rfl rfl rfl rfl rfl).1 rfl

/-- C9: date-fragment extraction consumes exactly year, month, day in
that fixed order, copying each child's matched text verbatim with no
validation of calendar legality. -/
theorem C9_date_fragment_fixed_order (dbg : Bool) (node y m d : Node)
    (h1 : node.as_rule = Rule.date_fragment)
    (h2 : node.children = [y, m, d])
    (hy : y.as_rule = Rule.year)
    (hm : m.as_rule = Rule.month)
    (hd : d.as_rule = Rule.day) :
    visit_date_fragment dbg node =
      .ok { year := y.as_str, month := m.as_str, day := d.as_str } := by
  simp [visit_date_fragment, debug_assert_rule, h1, h2, hy, hm, hd,
    consume_expected, debug_assert_residual_none, try_consume_any]

/-- C9 witness: `2024-01-15` decomposes into year `2024`, month `01`,
day `15`. -/
theorem C9_date_fragment_witness :
    visit_date_fragment true c8date =
      .ok { year := "2024", month := "01", day := "15" } :=
  C9_date_fragment_fixed_order true c8date c8y c8mo c8d rfl rfl rfl rfl rfl

/-- C10: `visit_date_literal` takes its first child (through the
spec-modelled unconditional `into_child`) as the date fragment and never
inspects whether further children remain, so a date-literal node with
residual children past the date fragment is accepted without any fault
in every build, debug assertions included. -/
theorem C10_date_literal_no_residual_check (dbg : Bool) (node dnode : Node)
    (extra : List Node) (df : DateFragment)
    (h1 : node.as_rule = Rule.date_literal)
    (h2 : node.children = dnode :: extra)
    (hdf : visit_date_fragment dbg dnode = .ok df) :
    visit_date_literal dbg node = .ok { date := df } := by
  rw [visit_date_literal, debug_assert_rule_ok h1]
  simp only [ok_bind]
  rw [into_child_cons h2]
  simp only [ok_bind]
  rw [hdf]
  simp only [ok_bind, pure_eq_ok]

def c10extra : Node := .mk (.other "WS") " " ⟨10, 11⟩ []
def c10dlit : Node := .mk .date_literal "2024-01-15 " ⟨0, 11⟩ [c8date, c10extra]

/-- C10 witness: a date-literal node with one residual child succeeds in
both the debug and the release build. -/
theorem C10_date_literal_no_residual_check_witness :
    visit_date_literal true c10dlit =
      .ok { date := { year := "2024", month := "01", day := "15" } }
    ∧ visit_date_literal false c10dlit =
      .ok { date := { year := "2024", month := "01", day := "15" } } :=
  ⟨C10_date_literal_no_residual_check true c10dlit c8date [c10extra]
      { year := "2024", month := "01", day := "15" } rfl rfl rfl,
   C10_date_literal_no_residual_check false c10dlit c8date [c10extra]
      { year := "2024", month := "01", day := "15" } rfl rfl rfl⟩

end TypeQL
